import Mathlib

/-!
Verification of the record-reconciliation core of `Custom_Field_Checker.py`:
the field validator (`check_fields_data`, `check_s_t`), the identifier
verifier (`find_student_ids`) and the tutor reconciler (`find_tutors`).

The Python code iterates positionally over CSV rows.  The main embedding uses
named record structures for well-shaped rows (the four profile columns, the
five pairing columns); a second, row-level embedding with fallible positional
indexing (`Except`, mirroring Python's `IndexError`) is used for the
no-exception claims.  The Python functions receive the loader's result tuple
and iterate over its first component `student_data[0]`; the embedding takes
that record list directly.
-/

namespace CustomFieldChecker

/-- One loaded row of the Student Profile Fields report.  In the Python code a
row is a list accessed positionally: `student[0]` = Student ID, `student[1]` =
first name, `student[2]` = last name, `student[3]` = data field. -/
structure Student where
  studentId : String
  firstName : String
  lastName : String
  dataField : String
deriving DecidableEq, Repr

/-- One loaded row of the Students Tutors data (`st_data`): `item[0]` =
Student ID, `item[1]` = first name, `item[2]` = last name, `item[3]` = course,
`item[4]` = tutor. -/
structure Pairing where
  studentId : String
  firstName : String
  lastName : String
  courseId : String
  tutorName : String
deriving DecidableEq, Repr

/-- The marker token: `identifier = 'FitNZ'` in `find_student_ids`. -/
def identifier : String := "FitNZ"

/-- Index of the first occurrence of `needle` in `hay`, on character lists:
the semantics of Python `str.find`, with absence reported as `none` rather
than `-1`. -/
def findSub (needle : List Char) : List Char → Option Nat
  | [] => if needle.isPrefixOf ([] : List Char) then some 0 else none
  | c :: rest =>
    if needle.isPrefixOf (c :: rest) then some 0
    else
      match findSub needle rest with
      | some n => some (n + 1)
      | none => none

/-- Python `hay.find(needle)` on strings (`none` for `-1`). -/
def py_find (hay needle : String) : Option Nat := findSub needle.data hay.data

/-- Python slice `s[a:b]` for `0 ≤ a ≤ b`: clips silently at the end of the
string, never fails. -/
def py_slice (s : String) (a b : Nat) : String := ⟨(s.data.drop a).take (b - a)⟩

/-- Python `needle in hay` on strings (equivalent to `hay.find(needle) != -1`). -/
def strIn (needle hay : String) : Bool := (py_find hay needle).isSome

/-- Body of the `find_student_ids` loop for one `student` row: `none` when the
record is clean, `some row` when `this_student` is appended to
`missing_students`.  Mirrors lines 169–191 of the source: if the identifier
occurs in `student[3]`, take the 9-character slice starting at its first
occurrence and compare it to `student[0]`; otherwise the record is flagged
directly. -/
def check_record_id (student : Student) : Option (List String) :=
  match py_find student.dataField identifier with
  | some location =>
    -- `student_id = student[3][location:location + 9]`
    if py_slice student.dataField location (location + 9) ≠ student.studentId then
      some [student.studentId, student.firstName, student.lastName]
    else
      none
  | none => some [student.studentId, student.firstName, student.lastName]

/-- `find_student_ids` (source lines 151–192), iterating over the loaded
record list `student_data[0]` in order and collecting the flagged rows. -/
def find_student_ids : List Student → List (List String)
  | [] => []
  | student :: rest =>
    match check_record_id student with
    | some row => row :: find_student_ids rest
    | none => find_student_ids rest

/-! ## Field validator (`check_fields_data`, source lines 40–59)

The loop appends one warning per empty first/last name and one error per empty
data field.  The Python test `student[k] in (None, '')` is modelled as
`= ""`: the in-scope callers feed CSV rows, whose fields are always strings.
The warning and error texts are the `format`-expanded strings of the source. -/

/-- Warnings the `check_fields_data` loop body appends for one record, in
order: first name, then last name. -/
def student_warnings (student : Student) : List String :=
  (if student.firstName = "" then
    ["First Name is missing for student with Student ID " ++ student.studentId]
   else []) ++
  (if student.lastName = "" then
    ["Last Name is missing for student with Student ID " ++ student.studentId]
   else [])

/-- Errors the `check_fields_data` loop body appends for one record: one entry
when the data field is empty. -/
def student_errors (student : Student) : List String :=
  if student.dataField = "" then
    ["Data is missing for student with Student ID " ++ student.studentId]
  else []

/-- The `errors` list accumulated by `check_fields_data` (handed to
`ft.process_error_log` when non-empty — the sink is external, the list itself
is what the core computes). -/
def cfd_errors (report_data : List Student) : List String :=
  (report_data.map student_errors).flatten

/-- The `warnings` list accumulated by `check_fields_data`, including its
fixed header element. -/
def cfd_warnings (report_data : List Student) : List String :=
  "\nStudent Profile Fields Report Warnings:\n" :: (report_data.map student_warnings).flatten

/-- `check_fields_data` (source lines 40–59): returns whether any warning was
appended past the header (`len(warnings) > 1`) together with the warnings. -/
def check_fields_data (report_data : List Student) : Bool × List String :=
  let warnings := cfd_warnings report_data
  if warnings.length > 1 then (true, warnings) else (false, warnings)

/-! ## Tutor reconciler (`find_tutors`, source lines 195–263) -/

/-- The inner `while j < len(tutor_names) and not tutor_found` scan: the first
name of `tutor_names`, in the given order, with `tutor_names[j] in student[3]`. -/
def first_tutor (tutor_names : List String) (dataField : String) : Option String :=
  match tutor_names with
  | [] => none
  | t :: rest => if strIn t dataField then some t else first_tutor rest dataField

/-- The `for item in st_data` scans of `find_tutors`: the first pairing row
with `item[0] == student[0]` (both scans `break` at the first hit). -/
def lookup_pairing (st_data : List Pairing) (sid : String) : Option Pairing :=
  match st_data with
  | [] => none
  | item :: rest => if item.studentId = sid then some item else lookup_pairing rest sid

/-- Body of the `find_tutors` loop for one `student` row: `none` when nothing
is appended to `missing_tutors`, `some row` for the appended `this_student`.
Mirrors source lines 216–260: if some tutor name occurs in `student[3]`, the
pairing row with the same Student ID is compared against the matched name and
a row carrying the pairing's `item[4]` is emitted on mismatch (nothing is
emitted when no pairing row exists); if no tutor name occurs, a row is always
emitted, carrying the pairing's `item[4]` when a pairing row exists and the
initial `tutor = ''` placeholder otherwise. -/
def process_record (student : Student) (tutor_names : List String)
    (st_data : List Pairing) : Option (List String) :=
  match first_tutor tutor_names student.dataField with
  | some t =>
    match lookup_pairing st_data student.studentId with
    | some item =>
      if t ≠ item.tutorName then
        some [student.studentId, student.firstName, student.lastName, item.tutorName]
      else
        none
    | none => none
  | none =>
    -- `tutor` starts as `''` and is overwritten by `item[4]` when a pairing row is found
    some [student.studentId, student.firstName, student.lastName,
          ((lookup_pairing st_data student.studentId).map Pairing.tutorName).getD ""]

/-- `find_tutors` (source lines 195–263), iterating over the loaded record
list `student_data[0]` in order and collecting the appended rows. -/
def find_tutors : List Student → List String → List Pairing → List (List String)
  | [], _, _ => []
  | student :: rest, tutor_names, st_data =>
    match process_record student tutor_names st_data with
    | some row => row :: find_tutors rest tutor_names st_data
    | none => find_tutors rest tutor_names st_data

/-! ## Row-level model with fallible positional indexing

The Python functions index CSV rows positionally (`student[3]`, `item[4]`);
a row with too few columns raises `IndexError`.  This second model works
directly on rows (`List String`) and makes each index access fallible, in the
evaluation order of the Python source, so that claims about exceptions can be
settled. -/

/-- Python `row[i]`: the value when the index is in range, `IndexError`
otherwise. -/
def getF (row : List String) (i : Nat) : Except String String :=
  match row.get? i with
  | some v => Except.ok v
  | none => Except.error "IndexError: list index out of range"

/-- The `check_fields_data` loop over raw rows, accumulating
`(errors, warnings)` past the header; each positional access can raise.
Access order per row follows the source: `student[1]` (then `student[0]` in
the message), `student[2]`, `student[3]`. -/
def cfd_rows_loop : List (List String) → Except String (List String × List String)
  | [] => Except.ok ([], [])
  | student :: rest =>
    match getF student 1 with
    | Except.error e => Except.error e
    | Except.ok firstName =>
      match (if firstName = "" then
              (getF student 0).map
                (fun sid => ["First Name is missing for student with Student ID " ++ sid])
             else Except.ok []) with
      | Except.error e => Except.error e
      | Except.ok ws1 =>
        match getF student 2 with
        | Except.error e => Except.error e
        | Except.ok lastName =>
          match (if lastName = "" then
                  (getF student 0).map
                    (fun sid => ["Last Name is missing for student with Student ID " ++ sid])
                 else Except.ok []) with
          | Except.error e => Except.error e
          | Except.ok ws2 =>
            match getF student 3 with
            | Except.error e => Except.error e
            | Except.ok dataField =>
              match (if dataField = "" then
                      (getF student 0).map
                        (fun sid => ["Data is missing for student with Student ID " ++ sid])
                     else Except.ok []) with
              | Except.error e => Except.error e
              | Except.ok es =>
                match cfd_rows_loop rest with
                | Except.error e => Except.error e
                | Except.ok (restErrors, restWarnings) =>
                  Except.ok (es ++ restErrors, ws1 ++ ws2 ++ restWarnings)

/-- `check_fields_data` on raw rows: the returned `(bool, warnings)` pair of
the source, or the `IndexError` a short row raises. -/
def check_fields_data_rows (report_data : List (List String)) :
    Except String (Bool × List String) :=
  match cfd_rows_loop report_data with
  | Except.error e => Except.error e
  | Except.ok (_, ws) =>
    let warnings := "\nStudent Profile Fields Report Warnings:\n" :: ws
    if warnings.length > 1 then Except.ok (true, warnings) else Except.ok (false, warnings)

/-- The `check_s_t` loop over raw Students Tutors rows (source lines 82–104):
warnings for empty `student[1]`, `student[2]`, `student[3]`, an error for
empty `student[4]`; each positional access can raise. -/
def cst_rows_loop : List (List String) → Except String (List String × List String)
  | [] => Except.ok ([], [])
  | student :: rest =>
    match getF student 1 with
    | Except.error e => Except.error e
    | Except.ok firstName =>
      match (if firstName = "" then
              (getF student 0).map
                (fun sid => ["First Name is missing for student with Student ID " ++ sid])
             else Except.ok []) with
      | Except.error e => Except.error e
      | Except.ok ws1 =>
        match getF student 2 with
        | Except.error e => Except.error e
        | Except.ok lastName =>
          match (if lastName = "" then
                  (getF student 0).map
                    (fun sid => ["Last Name is missing for student with Student ID " ++ sid])
                 else Except.ok []) with
          | Except.error e => Except.error e
          | Except.ok ws2 =>
            match getF student 3 with
            | Except.error e => Except.error e
            | Except.ok course =>
              match (if course = "" then
                      (getF student 0).map
                        (fun sid => ["Course is missing for student with Student ID " ++ sid])
                     else Except.ok []) with
              | Except.error e => Except.error e
              | Except.ok ws3 =>
                match getF student 4 with
                | Except.error e => Except.error e
                | Except.ok tutor =>
                  match (if tutor = "" then
                          (getF student 0).map
                            (fun sid => ["Tutor is missing for student with Student ID " ++ sid])
                         else Except.ok []) with
                  | Except.error e => Except.error e
                  | Except.ok es =>
                    match cst_rows_loop rest with
                    | Except.error e => Except.error e
                    | Except.ok (restErrors, restWarnings) =>
                      Except.ok (es ++ restErrors, ws1 ++ ws2 ++ ws3 ++ restWarnings)

/-- `check_s_t` on raw rows. -/
def check_s_t_rows (report_data : List (List String)) :
    Except String (Bool × List String) :=
  match cst_rows_loop report_data with
  | Except.error e => Except.error e
  | Except.ok (_, ws) =>
    let warnings := "\nStudents Tutors data Warnings:\n" :: ws
    if warnings.length > 1 then Except.ok (true, warnings) else Except.ok (false, warnings)

/-- `find_student_ids` on raw rows, with fallible positional access in source
order: `student[3]` for the membership test and slice, then `student[0]` for
the comparison, then `student[1]`, `student[2]` when a row is appended. -/
def find_student_ids_rows : List (List String) → Except String (List (List String))
  | [] => Except.ok []
  | student :: rest =>
    match getF student 3 with
    | Except.error e => Except.error e
    | Except.ok dataField =>
      let emitted : Except String (List (List String)) :=
        match py_find dataField identifier with
        | some location =>
          let student_id := py_slice dataField location (location + 9)
          match getF student 0 with
          | Except.error e => Except.error e
          | Except.ok s0 =>
            if student_id ≠ s0 then
              match getF student 1 with
              | Except.error e => Except.error e
              | Except.ok s1 =>
                match getF student 2 with
                | Except.error e => Except.error e
                | Except.ok s2 => Except.ok [[s0, s1, s2]]
            else Except.ok []
        | none =>
          match getF student 0 with
          | Except.error e => Except.error e
          | Except.ok s0 =>
            match getF student 1 with
            | Except.error e => Except.error e
            | Except.ok s1 =>
              match getF student 2 with
              | Except.error e => Except.error e
              | Except.ok s2 => Except.ok [[s0, s1, s2]]
      match emitted with
      | Except.error e => Except.error e
      | Except.ok rows =>
        match find_student_ids_rows rest with
        | Except.error e => Except.error e
        | Except.ok restRows => Except.ok (rows ++ restRows)

/-- The `for item in st_data` scan on raw pairing rows: the first row with
`item[0] == sid`, where reading `item[0]` can raise. -/
def lookup_pairing_rows : List (List String) → String → Except String (Option (List String))
  | [], _ => Except.ok none
  | item :: rest, sid =>
    match getF item 0 with
    | Except.error e => Except.error e
    | Except.ok i0 =>
      if i0 = sid then Except.ok (some item) else lookup_pairing_rows rest sid

/-- `find_tutors` on raw rows, with fallible positional access. -/
def find_tutors_rows :
    List (List String) → List String → List (List String) → Except String (List (List String))
  | [], _, _ => Except.ok []
  | student :: rest, tutor_names, st_data =>
    match getF student 3 with
    | Except.error e => Except.error e
    | Except.ok dataField =>
      let emitted : Except String (List (List String)) :=
        match first_tutor tutor_names dataField with
        | some t =>
          match getF student 0 with
          | Except.error e => Except.error e
          | Except.ok s0 =>
            match lookup_pairing_rows st_data s0 with
            | Except.error e => Except.error e
            | Except.ok (some item) =>
              match getF item 4 with
              | Except.error e => Except.error e
              | Except.ok it4 =>
                if t ≠ it4 then
                  match getF student 1 with
                  | Except.error e => Except.error e
                  | Except.ok s1 =>
                    match getF student 2 with
                    | Except.error e => Except.error e
                    | Except.ok s2 => Except.ok [[s0, s1, s2, it4]]
                else Except.ok []
            | Except.ok none => Except.ok []
        | none =>
          match getF student 0 with
          | Except.error e => Except.error e
          | Except.ok s0 =>
            match lookup_pairing_rows st_data s0 with
            | Except.error e => Except.error e
            | Except.ok found =>
              match (match found with
                     | some item => getF item 4
                     | none => Except.ok "") with
              | Except.error e => Except.error e
              | Except.ok tutor =>
                match getF student 1 with
                | Except.error e => Except.error e
                | Except.ok s1 =>
                  match getF student 2 with
                  | Except.error e => Except.error e
                  | Except.ok s2 => Except.ok [[s0, s1, s2, tutor]]
      match emitted with
      | Except.error e => Except.error e
      | Except.ok rows =>
        match find_tutors_rows rest tutor_names st_data with
        | Except.error e => Except.error e
        | Except.ok restRows => Except.ok (rows ++ restRows)

/-- `true` exactly when the computation returned normally. -/
def exOk {ε α : Type} : Except ε α → Bool
  | Except.ok _ => true
  | Except.error _ => false

/-! ## Helper lemmas -/

@[simp] theorem find_student_ids_nil : find_student_ids [] = [] := rfl

theorem find_student_ids_cons (s : Student) (rest : List Student) :
    find_student_ids (s :: rest) =
      match check_record_id s with
      | some row => row :: find_student_ids rest
      | none => find_student_ids rest := rfl

theorem find_student_ids_append (l1 l2 : List Student) :
    find_student_ids (l1 ++ l2) = find_student_ids l1 ++ find_student_ids l2 := by
  induction l1 with
  | nil => simp
  | cons s rest ih =>
    simp only [List.cons_append, find_student_ids]
    cases check_record_id s <;> simp [ih]

example : find_student_ids [⟨"FitNZ0001", "Ann", "Lee", "xxFitNZ0001yy"⟩] = [] := by decide
example : find_student_ids [⟨"FitNZ0001", "Ann", "Lee", "no token"⟩] =
    [["FitNZ0001", "Ann", "Lee"]] := by decide

@[simp] theorem find_tutors_nil (tutor_names : List String) (st_data : List Pairing) :
    find_tutors [] tutor_names st_data = [] := rfl

theorem find_tutors_cons (s : Student) (rest : List Student) (tutor_names : List String)
    (st_data : List Pairing) :
    find_tutors (s :: rest) tutor_names st_data =
      match process_record s tutor_names st_data with
      | some row => row :: find_tutors rest tutor_names st_data
      | none => find_tutors rest tutor_names st_data := rfl

theorem find_tutors_append (l1 l2 : List Student) (tutor_names : List String)
    (st_data : List Pairing) :
    find_tutors (l1 ++ l2) tutor_names st_data =
      find_tutors l1 tutor_names st_data ++ find_tutors l2 tutor_names st_data := by
  induction l1 with
  | nil => simp
  | cons s rest ih =>
    simp only [List.cons_append, find_tutors]
    cases process_record s tutor_names st_data <;> simp [ih]

example : find_tutors [⟨"S1", "Ann", "Lee", "tutor is Smith"⟩] ["Smith", "Jones"]
    [⟨"S1", "Ann", "Lee", "C1", "Jones"⟩] = [["S1", "Ann", "Lee", "Jones"]] := by decide
example : find_tutors [⟨"S1", "Ann", "Lee", "tutor is Smith"⟩] ["Smith", "Jones"]
    [⟨"S1", "Ann", "Lee", "C1", "Smith"⟩] = [] := by decide
example : find_tutors [⟨"S1", "Ann", "Lee", "nobody"⟩] ["Smith", "Jones"]
    [⟨"S1", "Ann", "Lee", "C1", "Smith"⟩] = [["S1", "Ann", "Lee", "Smith"]] := by decide
example : find_tutors [⟨"S1", "Ann", "Lee", "nobody"⟩] ["Smith", "Jones"] [] =
    [["S1", "Ann", "Lee", ""]] := by decide

example : check_fields_data_rows [["S1", "Ann", "Lee", "data"]] =
    Except.ok (false, ["\nStudent Profile Fields Report Warnings:\n"]) := by rfl
example : exOk (check_fields_data_rows [["S1"]]) = false := by decide
example : find_student_ids_rows [["FitNZ0001", "Ann", "Lee", "xxFitNZ0001"]] =
    Except.ok [] := by rfl

theorem string_length_data (s : String) : s.length = s.data.length := rfl

theorem take_of_isPrefixOf {l1 l2 : List Char} (h : l1.isPrefixOf l2 = true) :
    l2.take l1.length = l1 := by
  induction l1 generalizing l2 with
  | nil => rfl
  | cons a l ih =>
    cases l2 with
    | nil => simp [List.isPrefixOf] at h
    | cons b m =>
      simp only [List.isPrefixOf, Bool.and_eq_true, beq_iff_eq] at h
      simp [List.take, h.1, ih h.2]

theorem py_slice_of_occurrence (d sid : String) (p : Nat)
    (hlen : sid.data.length = 9)
    (hocc : sid.data.isPrefixOf (d.data.drop p) = true) :
    py_slice d p (p + 9) = sid := by
  have h1 : (d.data.drop p).take sid.data.length = sid.data := take_of_isPrefixOf hocc
  unfold py_slice
  rw [Nat.add_sub_cancel_left, ← hlen, h1]

theorem py_slice_data_length (d : String) (p : Nat) :
    (py_slice d p (p + 9)).data.length = min 9 (d.data.length - p) := by
  simp [py_slice, Nat.add_sub_cancel_left]

theorem py_slice_short_ne (d sid : String) (p : Nat)
    (hshort : d.data.length < p + 9) (hlen : sid.data.length = 9) :
    py_slice d p (p + 9) ≠ sid := by
  intro h
  have h2 := congrArg (fun s : String => s.data.length) h
  simp only [py_slice_data_length] at h2
  omega

theorem check_record_id_some_row (s : Student) (row : List String)
    (h : check_record_id s = some row) :
    row = [s.studentId, s.firstName, s.lastName] := by
  unfold check_record_id at h
  split at h
  · split at h
    · exact (Option.some.inj h).symm
    · cases h
  · exact (Option.some.inj h).symm

theorem find_student_ids_flag_assemble (pre post : List Student) (s : Student) (row : List String)
    (h : check_record_id s = some row) :
    find_student_ids (pre ++ s :: post) =
      find_student_ids pre ++ row :: find_student_ids post := by
  rw [find_student_ids_append, find_student_ids_cons, h]

theorem find_student_ids_clean_assemble (pre post : List Student) (s : Student)
    (h : check_record_id s = none) :
    find_student_ids (pre ++ s :: post) = find_student_ids (pre ++ post) := by
  rw [find_student_ids_append, find_student_ids_cons, h, find_student_ids_append]

/-! ## Claims about the identifier verifier -/

/-- Claim C1, counterexample.  The record's `dataField` is the marker token
immediately followed by exactly its `studentId` (`"FitNZ0001"`, of the typical
9-character token length), yet `find_student_ids` includes the record in the
missing-identifier output: the 9-character extraction starts at the marker
itself, so it reads `"FitNZFitN"`, not the `studentId` that follows the
marker. -/
theorem find_student_ids_marker_then_id_flagged :
    strIn (identifier ++ "FitNZ0001") "FitNZFitNZ0001" = true ∧
    ("FitNZ0001" : String).length = 9 ∧
    find_student_ids [⟨"FitNZ0001", "Ann", "Lee", "FitNZFitNZ0001"⟩] =
      [["FitNZ0001", "Ann", "Lee"]] := by decide

/-- Claim C1, amended: when the 9-character substring of `dataField` starting
at the *first* occurrence of the marker is exactly the record's `studentId`
(so `studentId` itself begins with the marker and carries the fixed-width
suffix, total length 9), `find_student_ids` never includes the record in the
missing-identifier output. -/
theorem find_student_ids_exact_token_clean (pre post : List Student) (s : Student) (p : Nat)
    (hfind : py_find s.dataField identifier = some p)
    (hlen : s.studentId.length = 9)
    (hocc : s.studentId.data.isPrefixOf (s.dataField.data.drop p) = true) :
    find_student_ids (pre ++ s :: post) = find_student_ids (pre ++ post) := by
  have hslice : py_slice s.dataField p (p + 9) = s.studentId :=
    py_slice_of_occurrence s.dataField s.studentId p
      ((string_length_data s.studentId).symm.trans hlen) hocc
  have hnone : check_record_id s = none := by
    simp [check_record_id, hfind, hslice]
  exact find_student_ids_clean_assemble pre post s hnone

/-- Witness for C1's amended theorem at a concrete record. -/
theorem find_student_ids_exact_token_clean_witness :
    py_find "xxFitNZ0001yy" identifier = some 2 ∧
    ("FitNZ0001" : String).length = 9 ∧
    ("FitNZ0001" : String).data.isPrefixOf (("xxFitNZ0001yy" : String).data.drop 2) = true ∧
    find_student_ids [⟨"FitNZ0001", "Ann", "Lee", "xxFitNZ0001yy"⟩] = find_student_ids [] :=
  ⟨by decide, by decide, by decide,
   find_student_ids_exact_token_clean [] [] ⟨"FitNZ0001", "Ann", "Lee", "xxFitNZ0001yy"⟩ 2
     (by decide) (by decide) (by decide)⟩

/-- Claim C3, counterexample.  The record's `dataField` contains the marker
but is too short for a full 9-character extraction (length 5 < 0 + 9), yet
`find_student_ids` does *not* classify it as mismatched: its `studentId`
equals the truncated extract, so the record is treated as clean and the
missing-identifier output is empty. -/
theorem find_student_ids_short_field_unflagged :
    py_find "FitNZ" identifier = some 0 ∧
    ("FitNZ" : String).length < 0 + 9 ∧
    find_student_ids [⟨"FitNZ", "Ann", "Lee", "FitNZ"⟩] = [] := by decide

/-- Claim C3, amended: when `dataField` contains the marker (first occurrence
at `p`) but is too short for the full 9-character extraction
(`length < p + 9`), and the record's `studentId` has the typical token length
9 (so it cannot equal the truncated extract), `find_student_ids` classifies
the record as mismatched and includes it in the missing-identifier output;
the truncating slice never raises. -/
theorem find_student_ids_short_extraction_flagged (pre post : List Student) (s : Student)
    (p : Nat)
    (hfind : py_find s.dataField identifier = some p)
    (hshort : s.dataField.length < p + 9)
    (hlen : s.studentId.length = 9) :
    find_student_ids (pre ++ s :: post) =
      find_student_ids pre ++
        [s.studentId, s.firstName, s.lastName] :: find_student_ids post := by
  have hne : py_slice s.dataField p (p + 9) ≠ s.studentId :=
    py_slice_short_ne s.dataField s.studentId p
      ((string_length_data s.dataField) ▸ hshort)
      ((string_length_data s.studentId).symm.trans hlen)
  have hsome : check_record_id s = some [s.studentId, s.firstName, s.lastName] := by
    simp [check_record_id, hfind, hne]
  exact find_student_ids_flag_assemble pre post s _ hsome

/-- Witness for C3's amended theorem at a concrete record. -/
theorem find_student_ids_short_extraction_flagged_witness :
    py_find "abFitNZ12" identifier = some 2 ∧
    ("abFitNZ12" : String).length < 2 + 9 ∧
    ("FitNZ0001" : String).length = 9 ∧
    find_student_ids [⟨"FitNZ0001", "Ann", "Lee", "abFitNZ12"⟩] =
      find_student_ids [] ++ ["FitNZ0001", "Ann", "Lee"] :: find_student_ids [] :=
  ⟨by decide, by decide, by decide,
   find_student_ids_short_extraction_flagged [] [] ⟨"FitNZ0001", "Ann", "Lee", "abFitNZ12"⟩ 2
     (by decide) (by decide) (by decide)⟩

/-- Claim C10: when `dataField` contains the marker more than once,
`find_student_ids` compares `studentId` only against the 9-character slice at
the *first* occurrence (`str.find`); a later occurrence whose slice would
match exactly does not prevent the record from being flagged when the first
occurrence's slice differs. -/
theorem find_student_ids_first_occurrence_only (pre post : List Student) (s : Student)
    (p q : Nat)
    (hfind : py_find s.dataField identifier = some p)
    (hne : py_slice s.dataField p (p + 9) ≠ s.studentId)
    (_hpq : p < q)
    (_hqmark : identifier.data.isPrefixOf (s.dataField.data.drop q) = true)
    (_hqslice : py_slice s.dataField q (q + 9) = s.studentId) :
    find_student_ids (pre ++ s :: post) =
      find_student_ids pre ++
        [s.studentId, s.firstName, s.lastName] :: find_student_ids post := by
  have hsome : check_record_id s = some [s.studentId, s.firstName, s.lastName] := by
    simp [check_record_id, hfind, hne]
  exact find_student_ids_flag_assemble pre post s _ hsome

/-- Witness for C10 at a concrete record whose data field holds the marker
twice: a wrong token first, the correct one second. -/
theorem find_student_ids_first_occurrence_only_witness :
    py_find "FitNZ0000FitNZ0001" identifier = some 0 ∧
    py_slice "FitNZ0000FitNZ0001" 0 (0 + 9) ≠ ("FitNZ0001" : String) ∧
    (0 : Nat) < 9 ∧
    identifier.data.isPrefixOf (("FitNZ0000FitNZ0001" : String).data.drop 9) = true ∧
    py_slice "FitNZ0000FitNZ0001" 9 (9 + 9) = ("FitNZ0001" : String) ∧
    find_student_ids [⟨"FitNZ0001", "Ann", "Lee", "FitNZ0000FitNZ0001"⟩] =
      find_student_ids [] ++ ["FitNZ0001", "Ann", "Lee"] :: find_student_ids [] :=
  ⟨by decide, by decide, by decide, by decide, by decide,
   find_student_ids_first_occurrence_only [] []
     ⟨"FitNZ0001", "Ann", "Lee", "FitNZ0000FitNZ0001"⟩ 0 9
     (by decide) (by decide) (by decide) (by decide) (by decide)⟩

/-! ## Claims about the tutor reconciler -/

theorem first_tutor_skip (pre more : List String) (d : String)
    (hpre : ∀ n ∈ pre, strIn n d = false) :
    first_tutor (pre ++ more) d = first_tutor more d := by
  induction pre with
  | nil => rfl
  | cons n rest ih =>
    have hn : strIn n d = false := hpre n (List.mem_cons_self n rest)
    simp only [List.cons_append, first_tutor, hn, Bool.false_eq_true, if_false]
    exact ih (fun m hm => hpre m (List.mem_cons_of_mem n hm))

theorem first_tutor_none (tutor_names : List String) (d : String)
    (h : ∀ n ∈ tutor_names, strIn n d = false) :
    first_tutor tutor_names d = none := by
  have := first_tutor_skip tutor_names [] d h
  simpa using this

theorem first_tutor_isSome (tutor_names : List String) (d : String)
    (h : ∃ n ∈ tutor_names, strIn n d = true) :
    ∃ t, first_tutor tutor_names d = some t := by
  induction tutor_names with
  | nil => simp at h
  | cons n rest ih =>
    by_cases hn : strIn n d = true
    · exact ⟨n, by simp [first_tutor, hn]⟩
    · obtain ⟨m, hm, hms⟩ := h
      rcases List.mem_cons.mp hm with hm1 | hm2
      · exact absurd (hm1 ▸ hms) hn
      · obtain ⟨t, ht⟩ := ih ⟨m, hm2, hms⟩
        exact ⟨t, by simp [first_tutor, hn, ht]⟩

theorem lookup_pairing_none (st_data : List Pairing) (sid : String)
    (h : ∀ item ∈ st_data, item.studentId ≠ sid) :
    lookup_pairing st_data sid = none := by
  induction st_data with
  | nil => rfl
  | cons item rest ih =>
    have hi : item.studentId ≠ sid := h item (List.mem_cons_self item rest)
    simp only [lookup_pairing, if_neg hi]
    exact ih (fun m hm => h m (List.mem_cons_of_mem item hm))

theorem find_tutors_flag_assemble (pre post : List Student) (s : Student)
    (tutor_names : List String) (st_data : List Pairing) (row : List String)
    (h : process_record s tutor_names st_data = some row) :
    find_tutors (pre ++ s :: post) tutor_names st_data =
      find_tutors pre tutor_names st_data ++
        row :: find_tutors post tutor_names st_data := by
  rw [find_tutors_append, find_tutors_cons, h]

theorem find_tutors_clean_assemble (pre post : List Student) (s : Student)
    (tutor_names : List String) (st_data : List Pairing)
    (h : process_record s tutor_names st_data = none) :
    find_tutors (pre ++ s :: post) tutor_names st_data =
      find_tutors (pre ++ post) tutor_names st_data := by
  rw [find_tutors_append, find_tutors_cons, h, find_tutors_append]

/-- Claim C2: `find_tutors` scans the roster in its given order and evaluates
the pairing comparison only against the first roster name occurring as a
substring of the record's `dataField`: with a roster `pre ++ a :: rest` where
no name of `pre` occurs and `a` occurs, the record's outcome is the same as
with the roster `[a]` — the names of `rest` (and what the pairing table says
about them) are irrelevant. -/
theorem find_tutors_first_match_determines (s : Student) (pre rest : List String)
    (a : String) (st_data : List Pairing)
    (hpre : ∀ n ∈ pre, strIn n s.dataField = false)
    (ha : strIn a s.dataField = true) :
    find_tutors [s] (pre ++ a :: rest) st_data = find_tutors [s] [a] st_data := by
  have h1 : first_tutor (pre ++ a :: rest) s.dataField = some a := by
    rw [first_tutor_skip pre (a :: rest) s.dataField hpre]
    simp [first_tutor, ha]
  have h2 : first_tutor [a] s.dataField = some a := by simp [first_tutor, ha]
  simp only [find_tutors, process_record, h1, h2]

/-- Witness for C2: `dataField` contains both `"Smith"` and `"Jones"`; the
roster lists `"Brown"` (absent), then `"Smith"`, then `"Jones"`; the pairing
table says `"Jones"`.  The outcome equals that of the roster `["Smith"]`
alone: a mismatch row, although `"Jones"` also occurs and would agree with the
pairing. -/
theorem find_tutors_first_match_determines_witness :
    (∀ n ∈ ["Brown"], strIn n "with Smith and Jones" = false) ∧
    strIn "Smith" "with Smith and Jones" = true ∧
    find_tutors [⟨"S1", "Ann", "Lee", "with Smith and Jones"⟩]
        (["Brown"] ++ "Smith" :: ["Jones"])
        [⟨"S1", "Ann", "Lee", "C1", "Jones"⟩] =
      find_tutors [⟨"S1", "Ann", "Lee", "with Smith and Jones"⟩] ["Smith"]
        [⟨"S1", "Ann", "Lee", "C1", "Jones"⟩] :=
  ⟨by decide, by decide,
   find_tutors_first_match_determines ⟨"S1", "Ann", "Lee", "with Smith and Jones"⟩
     ["Brown"] ["Jones"] "Smith" [⟨"S1", "Ann", "Lee", "C1", "Jones"⟩]
     (by decide) (by decide)⟩

/-- Claim C4: when the first roster name matched in `dataField` differs from
the `tutorName` of the pairing row with the record's `studentId`, the emitted
discrepancy row carries the *pairing's* `tutorName` (`item[4]`), never the
roster-matched name. -/
theorem find_tutors_mismatch_reports_pairing_name (pre post : List Student) (s : Student)
    (tutor_names : List String) (st_data : List Pairing) (t : String) (item : Pairing)
    (hmatch : first_tutor tutor_names s.dataField = some t)
    (hpair : lookup_pairing st_data s.studentId = some item)
    (hne : t ≠ item.tutorName) :
    find_tutors (pre ++ s :: post) tutor_names st_data =
      find_tutors pre tutor_names st_data ++
        [s.studentId, s.firstName, s.lastName, item.tutorName] ::
          find_tutors post tutor_names st_data := by
  have hsome : process_record s tutor_names st_data =
      some [s.studentId, s.firstName, s.lastName, item.tutorName] := by
    simp [process_record, hmatch, hpair, hne]
  exact find_tutors_flag_assemble pre post s tutor_names st_data _ hsome

/-- Witness for C4: roster matches `"Smith"`, the pairing says `"Jones"`; the
emitted row ends with `"Jones"`, not `"Smith"`. -/
theorem find_tutors_mismatch_reports_pairing_name_witness :
    first_tutor ["Smith"] "by Smith" = some "Smith" ∧
    lookup_pairing [⟨"S1", "Ann", "Lee", "C1", "Jones"⟩] "S1" =
      some ⟨"S1", "Ann", "Lee", "C1", "Jones"⟩ ∧
    ("Smith" : String) ≠ "Jones" ∧
    find_tutors [⟨"S1", "Ann", "Lee", "by Smith"⟩] ["Smith"]
        [⟨"S1", "Ann", "Lee", "C1", "Jones"⟩] =
      find_tutors [] ["Smith"] [⟨"S1", "Ann", "Lee", "C1", "Jones"⟩] ++
        ["S1", "Ann", "Lee", "Jones"] ::
          find_tutors [] ["Smith"] [⟨"S1", "Ann", "Lee", "C1", "Jones"⟩] :=
  ⟨by decide, by decide, by decide,
   find_tutors_mismatch_reports_pairing_name [] [] ⟨"S1", "Ann", "Lee", "by Smith"⟩
     ["Smith"] [⟨"S1", "Ann", "Lee", "C1", "Jones"⟩] "Smith"
     ⟨"S1", "Ann", "Lee", "C1", "Jones"⟩ (by decide) (by decide) (by decide)⟩

/-- Claim C6: when no roster name occurs in the record's `dataField`,
`find_tutors` always emits a discrepancy row for the record, whose tutor field
is the `tutorName` of the (first) pairing row with the record's `studentId`,
or the empty-string placeholder when no pairing row exists. -/
theorem find_tutors_no_match_always_flagged (pre post : List Student) (s : Student)
    (tutor_names : List String) (st_data : List Pairing)
    (hnone : ∀ n ∈ tutor_names, strIn n s.dataField = false) :
    find_tutors (pre ++ s :: post) tutor_names st_data =
      find_tutors pre tutor_names st_data ++
        [s.studentId, s.firstName, s.lastName,
          ((lookup_pairing st_data s.studentId).map Pairing.tutorName).getD ""] ::
          find_tutors post tutor_names st_data := by
  have hft : first_tutor tutor_names s.dataField = none :=
    first_tutor_none tutor_names s.dataField hnone
  have hsome : process_record s tutor_names st_data =
      some [s.studentId, s.firstName, s.lastName,
        ((lookup_pairing st_data s.studentId).map Pairing.tutorName).getD ""] := by
    simp [process_record, hft]
  exact find_tutors_flag_assemble pre post s tutor_names st_data _ hsome

/-- Witness for C6, applied twice: once with a pairing row present (the row
carries the pairing's `"Jones"`), once with an empty pairing table (the row
carries the `""` placeholder). -/
theorem find_tutors_no_match_always_flagged_witness :
    (∀ n ∈ ["Smith"], strIn n "nobody here" = false) ∧
    find_tutors [⟨"S1", "Ann", "Lee", "nobody here"⟩] ["Smith"]
        [⟨"S1", "Ann", "Lee", "C1", "Jones"⟩] =
      find_tutors [] ["Smith"] [⟨"S1", "Ann", "Lee", "C1", "Jones"⟩] ++
        ["S1", "Ann", "Lee",
          ((lookup_pairing [⟨"S1", "Ann", "Lee", "C1", "Jones"⟩] "S1").map
            Pairing.tutorName).getD ""] ::
          find_tutors [] ["Smith"] [⟨"S1", "Ann", "Lee", "C1", "Jones"⟩] ∧
    find_tutors [⟨"S1", "Ann", "Lee", "nobody here"⟩] ["Smith"] [] =
      find_tutors [] ["Smith"] [] ++
        ["S1", "Ann", "Lee", ((lookup_pairing [] "S1").map Pairing.tutorName).getD ""] ::
          find_tutors [] ["Smith"] [] :=
  ⟨by decide,
   find_tutors_no_match_always_flagged [] [] ⟨"S1", "Ann", "Lee", "nobody here"⟩
     ["Smith"] [⟨"S1", "Ann", "Lee", "C1", "Jones"⟩] (by decide),
   find_tutors_no_match_always_flagged [] [] ⟨"S1", "Ann", "Lee", "nobody here"⟩
     ["Smith"] [] (by decide)⟩

/-- Claim C7: when some roster name occurs in the record's `dataField` but no
pairing row carries the record's `studentId`, `find_tutors` emits nothing for
the record — the absence of a pairing row on the matched path is not itself
flagged. -/
theorem find_tutors_match_without_pairing_clean (pre post : List Student) (s : Student)
    (tutor_names : List String) (st_data : List Pairing)
    (hmatch : ∃ n ∈ tutor_names, strIn n s.dataField = true)
    (hnopair : ∀ item ∈ st_data, item.studentId ≠ s.studentId) :
    find_tutors (pre ++ s :: post) tutor_names st_data =
      find_tutors (pre ++ post) tutor_names st_data := by
  obtain ⟨t, ht⟩ := first_tutor_isSome tutor_names s.dataField hmatch
  have hlp : lookup_pairing st_data s.studentId = none :=
    lookup_pairing_none st_data s.studentId hnopair
  have hnone : process_record s tutor_names st_data = none := by
    simp [process_record, ht, hlp]
  exact find_tutors_clean_assemble pre post s tutor_names st_data hnone

/-- Witness for C7: `"Smith"` occurs in the data field, the pairing table
holds only an unrelated student, and the record is not flagged. -/
theorem find_tutors_match_without_pairing_clean_witness :
    (∃ n ∈ ["Smith"], strIn n "by Smith" = true) ∧
    (∀ item ∈ [(⟨"S2", "Bo", "Tan", "C1", "Jones"⟩ : Pairing)], item.studentId ≠ "S1") ∧
    find_tutors [⟨"S1", "Ann", "Lee", "by Smith"⟩] ["Smith"]
        [⟨"S2", "Bo", "Tan", "C1", "Jones"⟩] =
      find_tutors [] ["Smith"] [⟨"S2", "Bo", "Tan", "C1", "Jones"⟩] :=
  ⟨⟨"Smith", by decide, by decide⟩, by decide,
   find_tutors_match_without_pairing_clean [] [] ⟨"S1", "Ann", "Lee", "by Smith"⟩
     ["Smith"] [⟨"S2", "Bo", "Tan", "C1", "Jones"⟩]
     ⟨"Smith", by decide, by decide⟩ (by decide)⟩

/-! ## Order preservation -/

theorem process_record_some_row (s : Student) (tutor_names : List String)
    (st_data : List Pairing) (row : List String)
    (h : process_record s tutor_names st_data = some row) :
    row = [s.studentId, s.firstName, s.lastName,
      ((lookup_pairing st_data s.studentId).map Pairing.tutorName).getD ""] := by
  unfold process_record at h
  split at h
  · rename_i t hft
    split at h
    · rename_i item hlp
      split at h
      · simp only [Option.some.injEq] at h
        rw [← h, hlp]
        rfl
      · cases h
    · cases h
  · simp only [Option.some.injEq] at h
    exact h.symm

/-- Claim C8: the discrepancy lists of `find_student_ids` and of `find_tutors`
list flagged students in the same relative order as the input records: each is
an order-preserving selection (a sublist) of the per-record rows taken in
input order. -/
theorem outputs_preserve_input_order (students : List Student)
    (tutor_names : List String) (st_data : List Pairing) :
    List.Sublist (find_student_ids students)
      (students.map (fun s => [s.studentId, s.firstName, s.lastName])) ∧
    List.Sublist (find_tutors students tutor_names st_data)
      (students.map (fun s => [s.studentId, s.firstName, s.lastName,
        ((lookup_pairing st_data s.studentId).map Pairing.tutorName).getD ""])) := by
  constructor
  · induction students with
    | nil => simp
    | cons s rest ih =>
      rw [List.map_cons, find_student_ids_cons]
      rcases hc : check_record_id s with _ | row
      · exact List.Sublist.cons _ ih
      · rw [check_record_id_some_row s row hc]
        exact List.Sublist.cons₂ _ ih
  · induction students with
    | nil => simp
    | cons s rest ih =>
      rw [List.map_cons, find_tutors_cons]
      rcases hc : process_record s tutor_names st_data with _ | row
      · exact List.Sublist.cons _ ih
      · rw [process_record_some_row s tutor_names st_data row hc]
        exact List.Sublist.cons₂ _ ih

/-! ## Validator separation -/

theorem student_errors_length (s : Student) :
    (student_errors s).length = if s.dataField = "" then 1 else 0 := by
  unfold student_errors
  split <;> rfl

theorem student_warnings_length (s : Student) :
    (student_warnings s).length =
      (if s.firstName = "" then 1 else 0) + (if s.lastName = "" then 1 else 0) := by
  unfold student_warnings
  split <;> split <;> rfl

theorem cfd_errors_length (report_data : List Student) :
    (cfd_errors report_data).length =
      (report_data.filter (fun s => s.dataField == "")).length := by
  induction report_data with
  | nil => rfl
  | cons s rest ih =>
    simp only [cfd_errors, List.map_cons, List.flatten_cons, List.length_append,
      List.filter_cons, student_errors_length] at *
    by_cases h : s.dataField = "" <;> simp [h, ih]
    omega

theorem cfd_warnings_body_length (report_data : List Student) :
    ((report_data.map student_warnings).flatten).length =
      (report_data.filter (fun s => s.firstName == "")).length +
        (report_data.filter (fun s => s.lastName == "")).length := by
  induction report_data with
  | nil => rfl
  | cons s rest ih =>
    simp only [List.map_cons, List.flatten_cons, List.length_append, ih,
      List.filter_cons, student_warnings_length]
    by_cases h1 : s.firstName = "" <;> by_cases h2 : s.lastName = "" <;>
      simp [h1, h2] <;> omega

theorem find_student_ids_all_empty_data (l : List Student) (hl : ∀ s ∈ l, s.dataField = "") :
    find_student_ids l = l.map (fun s => [s.studentId, s.firstName, s.lastName]) := by
  induction l with
  | nil => rfl
  | cons s rest ih =>
    have hs : s.dataField = "" := hl s (List.mem_cons_self s rest)
    have hmarker : py_find s.dataField identifier = none := by
      rw [hs]
      decide
    have hflag : check_record_id s = some [s.studentId, s.firstName, s.lastName] := by
      simp [check_record_id, hmarker]
    rw [List.map_cons, find_student_ids_cons, hflag,
      ih (fun m hm => hl m (List.mem_cons_of_mem s hm))]

/-- Claim C5, counterexample.  A record whose hard-required data payload
(field index 3) is empty contributes exactly one entry to the validator's
error list and no warning — but it does *not* contribute zero entries to the
discrepancy output: the empty `dataField` cannot contain the marker, so
`find_student_ids` flags the record, one discrepancy row. -/
theorem validator_empty_data_also_flagged :
    cfd_errors [⟨"FitNZ0001", "Ann", "Lee", ""⟩] =
      ["Data is missing for student with Student ID FitNZ0001"] ∧
    (cfd_warnings [⟨"FitNZ0001", "Ann", "Lee", ""⟩]).length = 1 ∧
    find_student_ids [⟨"FitNZ0001", "Ann", "Lee", ""⟩] =
      [["FitNZ0001", "Ann", "Lee"]] := by decide

/-- Claim C5, amended: every record with an empty hard-required field (the
data payload, index 3) contributes exactly one entry to the validator's error
list, and every record with an empty soft-required field (first or last name)
contributes exactly one warning per such field and no error entry; the
validator itself emits no discrepancies, but each empty-payload record still
appears once in the missing-identifier output, since an empty `dataField`
cannot contain the marker. -/
theorem check_fields_data_separation (report_data : List Student) :
    (cfd_errors report_data).length =
      (report_data.filter (fun s => s.dataField == "")).length ∧
    (cfd_warnings report_data).length =
      1 + ((report_data.filter (fun s => s.firstName == "")).length +
        (report_data.filter (fun s => s.lastName == "")).length) ∧
    find_student_ids (report_data.filter (fun s => s.dataField == "")) =
      (report_data.filter (fun s => s.dataField == "")).map
        (fun s => [s.studentId, s.firstName, s.lastName]) := by
  refine ⟨cfd_errors_length report_data, ?_, ?_⟩
  · simp only [cfd_warnings, List.length_cons, cfd_warnings_body_length]
    omega
  · refine find_student_ids_all_empty_data _ (fun s hs => ?_)
    have := List.mem_filter.mp hs
    simpa using this.2

/-! ## No-exception claims over the row-level model -/

theorem getF_ok (row : List String) (i : Nat) (h : i < row.length) :
    ∃ v, getF row i = Except.ok v := by
  rcases hg : row.get? i with _ | v
  · rw [List.get?_eq_none] at hg
    omega
  · refine ⟨v, ?_⟩
    unfold getF
    rw [hg]

theorem ok_ite {α : Type} (c : Prop) [Decidable c] (x y : α) :
    (if c then (Except.ok x : Except String α) else Except.ok y) =
      Except.ok (if c then x else y) := by
  split <;> rfl

theorem exOk_iff {ε α : Type} (e : Except ε α) : exOk e = true ↔ ∃ v, e = Except.ok v := by
  cases e <;> simp [exOk]

theorem cfd_rows_loop_ok :
    ∀ (rows : List (List String)), (∀ r ∈ rows, 4 ≤ r.length) →
      ∃ v, cfd_rows_loop rows = Except.ok v
  | [], _ => ⟨([], []), rfl⟩
  | student :: rest, h4 => by
    have hlen : 4 ≤ student.length := h4 student (List.mem_cons_self student rest)
    obtain ⟨v0, h0⟩ := getF_ok student 0 (by omega)
    obtain ⟨v1, h1⟩ := getF_ok student 1 (by omega)
    obtain ⟨v2, h2⟩ := getF_ok student 2 (by omega)
    obtain ⟨v3, h3⟩ := getF_ok student 3 (by omega)
    obtain ⟨vr, hr⟩ :=
      cfd_rows_loop_ok rest (fun r hm => h4 r (List.mem_cons_of_mem student hm))
    rw [show ∀ e, (∃ v, e = Except.ok v) ↔ exOk e = true from
      fun e => (exOk_iff e).symm]
    simp only [cfd_rows_loop, h0, h1, h2, h3, Except.map, ok_ite, hr]
    rfl

theorem cst_rows_loop_ok :
    ∀ (rows : List (List String)), (∀ r ∈ rows, 5 ≤ r.length) →
      ∃ v, cst_rows_loop rows = Except.ok v
  | [], _ => ⟨([], []), rfl⟩
  | student :: rest, h5 => by
    have hlen : 5 ≤ student.length := h5 student (List.mem_cons_self student rest)
    obtain ⟨v0, h0⟩ := getF_ok student 0 (by omega)
    obtain ⟨v1, h1⟩ := getF_ok student 1 (by omega)
    obtain ⟨v2, h2⟩ := getF_ok student 2 (by omega)
    obtain ⟨v3, h3⟩ := getF_ok student 3 (by omega)
    obtain ⟨v4, h4⟩ := getF_ok student 4 (by omega)
    obtain ⟨vr, hr⟩ :=
      cst_rows_loop_ok rest (fun r hm => h5 r (List.mem_cons_of_mem student hm))
    rw [show ∀ e, (∃ v, e = Except.ok v) ↔ exOk e = true from
      fun e => (exOk_iff e).symm]
    simp only [cst_rows_loop, h0, h1, h2, h3, h4, Except.map, ok_ite, hr]
    rfl

theorem find_student_ids_rows_ok :
    ∀ (rows : List (List String)), (∀ r ∈ rows, 4 ≤ r.length) →
      ∃ v, find_student_ids_rows rows = Except.ok v
  | [], _ => ⟨[], rfl⟩
  | student :: rest, h4 => by
    have hlen : 4 ≤ student.length := h4 student (List.mem_cons_self student rest)
    obtain ⟨v0, h0⟩ := getF_ok student 0 (by omega)
    obtain ⟨v1, h1⟩ := getF_ok student 1 (by omega)
    obtain ⟨v2, h2⟩ := getF_ok student 2 (by omega)
    obtain ⟨v3, h3⟩ := getF_ok student 3 (by omega)
    obtain ⟨vr, hr⟩ :=
      find_student_ids_rows_ok rest (fun r hm => h4 r (List.mem_cons_of_mem student hm))
    rw [show ∀ e, (∃ v, e = Except.ok v) ↔ exOk e = true from
      fun e => (exOk_iff e).symm]
    rcases hpf : py_find v3 identifier with _ | loc <;>
      simp only [find_student_ids_rows, h0, h1, h2, h3, hpf, ok_ite, hr] <;> rfl

theorem lookup_pairing_rows_ok :
    ∀ (st_data : List (List String)) (sid : String), (∀ r ∈ st_data, 5 ≤ r.length) →
      ∃ o, lookup_pairing_rows st_data sid = Except.ok o ∧
        ∀ item, o = some item → 5 ≤ item.length
  | [], _, _ => ⟨none, rfl, fun item h => by cases h⟩
  | item :: rest, sid, h5 => by
    have hlen : 5 ≤ item.length := h5 item (List.mem_cons_self item rest)
    obtain ⟨v0, h0⟩ := getF_ok item 0 (by omega)
    by_cases he : v0 = sid
    · refine ⟨some item, by simp [lookup_pairing_rows, h0, he], fun m hm => ?_⟩
      cases hm
      exact hlen
    · obtain ⟨o, ho, hom⟩ :=
        lookup_pairing_rows_ok rest sid (fun r hm => h5 r (List.mem_cons_of_mem item hm))
      exact ⟨o, by simp [lookup_pairing_rows, h0, he, ho], hom⟩

theorem find_tutors_rows_ok :
    ∀ (rows : List (List String)) (tutor_names : List String)
      (st_data : List (List String)),
      (∀ r ∈ rows, 4 ≤ r.length) → (∀ r ∈ st_data, 5 ≤ r.length) →
      ∃ v, find_tutors_rows rows tutor_names st_data = Except.ok v
  | [], _, _, _, _ => ⟨[], rfl⟩
  | student :: rest, tutor_names, st_data, h4, h5 => by
    have hlen : 4 ≤ student.length := h4 student (List.mem_cons_self student rest)
    obtain ⟨v0, h0⟩ := getF_ok student 0 (by omega)
    obtain ⟨v1, h1⟩ := getF_ok student 1 (by omega)
    obtain ⟨v2, h2⟩ := getF_ok student 2 (by omega)
    obtain ⟨v3, h3⟩ := getF_ok student 3 (by omega)
    obtain ⟨o, ho, hom⟩ := lookup_pairing_rows_ok st_data v0 h5
    obtain ⟨vr, hr⟩ :=
      find_tutors_rows_ok rest tutor_names st_data
        (fun r hm => h4 r (List.mem_cons_of_mem student hm)) h5
    rw [show ∀ e, (∃ v, e = Except.ok v) ↔ exOk e = true from
      fun e => (exOk_iff e).symm]
    rcases hft : first_tutor tutor_names v3 with _ | t
    · rcases o with _ | item
      · simp only [find_tutors_rows, h0, h1, h2, h3, hft, ho, ok_ite, hr]
        rfl
      · obtain ⟨v4, hi4⟩ := getF_ok item 4 (by have h5i := hom item rfl; omega)
        simp only [find_tutors_rows, h0, h1, h2, h3, hft, ho, hi4, ok_ite, hr]
        rfl
    · rcases o with _ | item
      · simp only [find_tutors_rows, h0, h1, h2, h3, hft, ho, ok_ite, hr]
        rfl
      · obtain ⟨v4, hi4⟩ := getF_ok item 4 (by have h5i := hom item rfl; omega)
        simp only [find_tutors_rows, h0, h1, h2, h3, hft, ho, hi4, ok_ite, hr]
        rfl

/-- Claim C9, counterexample.  A loaded row with fewer positional fields than
the code indexes (e.g. a one-column CSV line, which the loader keeps since its
first field is non-empty) makes every reconciliation-core function raise
`IndexError` rather than degrade to a warning, error entry or discrepancy. -/
theorem core_short_row_raises :
    check_fields_data_rows [["S1"]] =
      Except.error "IndexError: list index out of range" ∧
    check_s_t_rows [["S1", "Ann", "Lee", "C1"]] =
      Except.error "IndexError: list index out of range" ∧
    find_student_ids_rows [["S1"]] =
      Except.error "IndexError: list index out of range" ∧
    find_tutors_rows [["S1"]] [] [] =
      Except.error "IndexError: list index out of range" :=
  ⟨rfl, rfl, rfl, rfl⟩

/-- Claim C9, amended: for every input whose rows carry the positional fields
the code accesses — at least 4 columns per profile row, at least 5 per
Students Tutors row — no exception propagates out of the reconciliation core
(`check_fields_data`, `check_s_t`, `find_student_ids`, `find_tutors`): every
anomaly in the field *values* degrades to a warning/error entry or a
discrepancy row.  A row with fewer columns raises `IndexError`. -/
theorem core_no_exception_on_well_shaped_rows (rows st_rows : List (List String))
    (tutor_names : List String)
    (h4 : ∀ r ∈ rows, 4 ≤ r.length) (h5 : ∀ r ∈ st_rows, 5 ≤ r.length) :
    exOk (check_fields_data_rows rows) = true ∧
    exOk (check_s_t_rows st_rows) = true ∧
    exOk (find_student_ids_rows rows) = true ∧
    exOk (find_tutors_rows rows tutor_names st_rows) = true := by
  refine ⟨?_, ?_, ?_, ?_⟩
  · obtain ⟨⟨es, ws⟩, h⟩ := cfd_rows_loop_ok rows h4
    simp only [check_fields_data_rows, h, ok_ite]
    rfl
  · obtain ⟨⟨es, ws⟩, h⟩ := cst_rows_loop_ok st_rows h5
    simp only [check_s_t_rows, h, ok_ite]
    rfl
  · obtain ⟨v, h⟩ := find_student_ids_rows_ok rows h4
    rw [h]
    rfl
  · obtain ⟨v, h⟩ := find_tutors_rows_ok rows tutor_names st_rows h4 h5
    rw [h]
    rfl

/-- Witness for C9's amended theorem on a concrete well-shaped dataset. -/
theorem core_no_exception_on_well_shaped_rows_witness :
    (∀ r ∈ [["FitNZ0001", "Ann", "Lee", "xFitNZ0001"], ["S2", "", "Tan", ""]],
      4 ≤ r.length) ∧
    (∀ r ∈ [["FitNZ0001", "Ann", "Lee", "C1", "Smith"]], 5 ≤ r.length) ∧
    (exOk (check_fields_data_rows
        [["FitNZ0001", "Ann", "Lee", "xFitNZ0001"], ["S2", "", "Tan", ""]]) = true ∧
     exOk (check_s_t_rows [["FitNZ0001", "Ann", "Lee", "C1", "Smith"]]) = true ∧
     exOk (find_student_ids_rows
        [["FitNZ0001", "Ann", "Lee", "xFitNZ0001"], ["S2", "", "Tan", ""]]) = true ∧
     exOk (find_tutors_rows
        [["FitNZ0001", "Ann", "Lee", "xFitNZ0001"], ["S2", "", "Tan", ""]]
        ["Smith"] [["FitNZ0001", "Ann", "Lee", "C1", "Smith"]]) = true) :=
  ⟨by decide, by decide,
   core_no_exception_on_well_shaped_rows
     [["FitNZ0001", "Ann", "Lee", "xFitNZ0001"], ["S2", "", "Tan", ""]]
     [["FitNZ0001", "Ann", "Lee", "C1", "Smith"]]
     ["Smith"] (by decide) (by decide)⟩

end CustomFieldChecker
